/-
Verification of the timezone-tracker core engine
(custom_components/timezone_tracker/coordinator.py).

We shallowly embed the adaptive polling interval planner
(_calculate_check_interval), the spatial timezone resolution
(_find_timezone_at_point), the boundary-distance estimators
(_calculate_distance_to_boundary, _calculate_distance_along_heading)
and the hysteresis tick logic of async_update / _update_ha_timezone.

Python floats are modelled by ℚ, with `WithTop ℚ` wherever the code can
hold float('inf').  The numeric geometry kernel that bottoms out in real
transcendental functions (math.sin/cos/asin/atan2 inside _project_point
and _haversine_distance, and shapely's containment / nearest-point
primitives) is modelled abstractly as fields of the `Coordinator`
structure: the control flow around those calls is embedded faithfully.
-/
import Mathlib

set_option maxRecDepth 100000

namespace TimezoneTracker

/-- Python's `int()` applied to a (finite) float: truncation toward zero,
written with the computable `Rat.floor`. -/
def pyTrunc (q : ℚ) : ℤ := if q < 0 then -Rat.floor (-q) else Rat.floor q

-- Constants from const.py (distance thresholds in miles, speed in mph).
def DISTANCE_VERY_CLOSE : ℚ := 2
def DISTANCE_CLOSE : ℚ := 6
def DISTANCE_MEDIUM : ℚ := 20
def DISTANCE_FAR : ℚ := 50
def SPEED_STOPPED : ℚ := 3
def SPEED_SLOW : ℚ := 25
def SPEED_FAST : ℚ := 65

/-- Distance factor step function of `_calculate_check_interval`. -/
def dist_factor (distance : WithTop ℚ) : ℚ :=
  if distance < (DISTANCE_VERY_CLOSE : WithTop ℚ) then 0.02
  else if distance < (DISTANCE_CLOSE : WithTop ℚ) then 0.08
  else if distance < (DISTANCE_MEDIUM : WithTop ℚ) then 0.25
  else if distance < (DISTANCE_FAR : WithTop ℚ) then 0.5
  else 1

/-- Speed factor step function of `_calculate_check_interval`. -/
def speed_factor (speed : ℚ) : ℚ :=
  if speed < SPEED_STOPPED then 1
  else if speed < SPEED_SLOW then 0.8
  else if speed < SPEED_FAST then 0.5
  else 0.2

/-- The `combined` value of `_calculate_check_interval` after the base
`min` formula and the two sequential special-case overrides.  The source
applies the overrides with two independent `if` statements, the second
one executed after (and possibly overwriting) the first. -/
def combined_factor (distance : WithTop ℚ) (speed : ℚ) : ℚ :=
  let combined := min (dist_factor distance)
    (speed_factor speed * 0.7 + dist_factor distance * 0.3)
  let combined := if distance < (DISTANCE_VERY_CLOSE : WithTop ℚ) ∧ speed > SPEED_STOPPED
    then 0.01 else combined
  let combined := if distance < (DISTANCE_CLOSE : WithTop ℚ) ∧ speed > SPEED_FAST
    then 0.02 else combined
  combined

/-- `_calculate_check_interval(distance, speed)`: raw interval from the
combined factor, the estimated-time-to-boundary cap when moving with a
finite distance, then the `[min_interval, max_interval]` clamp with
Python `int()` truncation. -/
def calculate_check_interval (min_interval max_interval : ℤ)
    (distance : WithTop ℚ) (speed : ℚ) : ℤ :=
  let combined := combined_factor distance speed
  let interval : ℚ :=
    Rat.ofInt min_interval + (Rat.ofInt max_interval - Rat.ofInt min_interval) * combined
  let interval : ℚ :=
    match distance with
    | ⊤ => interval
    | (d : ℚ) =>
      if speed > SPEED_STOPPED then
        min interval (max (Rat.ofInt min_interval) (d / speed * 3600 / 4))
      else interval
  max min_interval (min max_interval (pyTrunc interval))

/-- A lon/lat point (shapely `Point(lon, lat)`). -/
structure GeoPoint where
  lon : ℚ
  lat : ℚ
deriving DecidableEq

/-- Abstract model of a shapely geometry: `contains` is the exact
point-in-polygon test, `nearestPt` the second component of
`nearest_points(point, polygon)`. -/
structure Polygon where
  contains : GeoPoint → Bool
  nearestPt : GeoPoint → GeoPoint

/-- Model of the coordinator's geometric state: the insertion-ordered
`_tz_polygons` dict as an entry list (`_tz_index` is its key list, and
the STRtree position `i` refers to `entries[i]`), the STRtree queries,
and the numeric kernel (`_project_point`, `_haversine_distance`)
abstracted as functions.  Per the shapely contract the tree only hands
back valid indices, which the `Fin` typing encodes. -/
structure Coordinator where
  entries : List (String × Polygon)
  query : GeoPoint → List (Fin entries.length)
  queryNearest : GeoPoint → ℕ → List (Fin entries.length)
  nearest : GeoPoint → Option (Fin entries.length)
  project : ℚ → ℚ → ℚ → ℚ → ℚ × ℚ
  hav : ℚ → ℚ → ℚ → ℚ → ℚ

/-- `self._tz_index[i]`. -/
def tzAt (c : Coordinator) (i : Fin c.entries.length) : String := (c.entries.get i).1

/-- `self._tz_polygons[self._tz_index[i]]` (dict keys are unique, so the
polygon stored at index `i` is the entry's own geometry). -/
def polyAt (c : Coordinator) (i : Fin c.entries.length) : Polygon := (c.entries.get i).2

/-- `tz_id in self._tz_polygons` / `self._tz_polygons[tz_id]`. -/
def lookupPolygon (c : Coordinator) (tzId : String) : Option Polygon :=
  (c.entries.find? (fun e => e.1 = tzId)).map (·.2)

/-- `_find_timezone_at_point`: exact containment over the STRtree
candidates in query order, else the nearest polygon, else nothing. -/
def find_timezone_at_point (c : Coordinator) (lat lon : ℚ) : Option String :=
  if c.entries.isEmpty then none
  else
    let point : GeoPoint := ⟨lon, lat⟩
    match (c.query point).find? (fun i => (polyAt c i).contains point) with
    | some i => some (tzAt c i)
    | none => (c.nearest point).map (tzAt c)

/-- Candidate loop of `_calculate_distance_to_boundary`: running
minimum distance and its timezone over the `query_nearest` indices,
skipping candidates equal to the current timezone. -/
def boundary_fold (c : Coordinator) (lat lon : ℚ) (tzId : String) :
    List (Fin c.entries.length) → WithTop ℚ × Option String → WithTop ℚ × Option String
  | [], acc => acc
  | i :: rest, (minDistance, nearestTz) =>
    if tzAt c i = tzId then boundary_fold c lat lon tzId rest (minDistance, nearestTz)
    else
      let nearestPt := (polyAt c i).nearestPt ⟨lon, lat⟩
      let distMiles := c.hav lat lon nearestPt.lat nearestPt.lon
      if (distMiles : WithTop ℚ) < minDistance then
        boundary_fold c lat lon tzId rest ((distMiles : WithTop ℚ), some (tzAt c i))
      else boundary_fold c lat lon tzId rest (minDistance, nearestTz)

/-- `_calculate_distance_to_boundary(lat, lon, tz_id)`. -/
def calculate_distance_to_boundary (c : Coordinator) (lat lon : ℚ) (tzId : String) :
    WithTop ℚ × Option String :=
  if c.entries.isEmpty || (lookupPolygon c tzId).isNone then (⊤, none)
  else
    let kNearest := min 10 c.entries.length
    boundary_fold c lat lon tzId (c.queryNearest ⟨lon, lat⟩ kNearest) (⊤, none)

/-- Binary-search refinement loop of `_calculate_distance_along_heading`
(`for _ in range(10): ...` over the bracket `(low, high)`). -/
def bisect (c : Coordinator) (polygon : Polygon) (lat lon heading : ℚ) :
    ℕ → ℚ × ℚ → ℚ × ℚ
  | 0, lh => lh
  | n + 1, (low, high) =>
    let mid := (low + high) / 2
    let pr := c.project lat lon heading mid
    if polygon.contains ⟨pr.2, pr.1⟩ then
      bisect c polygon lat lon heading n (mid, high)
    else
      bisect c polygon lat lon heading n (low, mid)

/-- Coarse trial distances of `_calculate_distance_along_heading`. -/
def trialDistances : List ℚ := [0.5, 1, 2, 5, 10, 20, 50, 100, 150, 200]

/-- Trial-stepping loop of `_calculate_distance_along_heading`: at the
first trial distance whose projected point is outside the current
polygon and resolves to a different timezone, binary-search the bracket
`(0, dist)` for 10 iterations and return the final midpoint; otherwise
keep stepping, and return `max_distance` when the trials are exhausted
or exceed `max_distance`. -/
def heading_go (c : Coordinator) (polygon : Polygon) (lat lon heading : ℚ)
    (tzId : String) (maxDistance : ℚ) : List ℚ → ℚ
  | [] => maxDistance
  | d :: rest =>
    if d > maxDistance then maxDistance
    else
      let pr := c.project lat lon heading d
      if ¬ polygon.contains ⟨pr.2, pr.1⟩ then
        match find_timezone_at_point c pr.1 pr.2 with
        | some otherTz =>
          if otherTz ≠ tzId then
            let lh := bisect c polygon lat lon heading 10 (0, d)
            (lh.1 + lh.2) / 2
          else heading_go c polygon lat lon heading tzId maxDistance rest
        | none => heading_go c polygon lat lon heading tzId maxDistance rest
      else heading_go c polygon lat lon heading tzId maxDistance rest

/-- `_calculate_distance_along_heading(lat, lon, heading, tz_id,
max_distance=200)`; infinity when the current timezone has no polygon. -/
def calculate_distance_along_heading (c : Coordinator) (lat lon heading : ℚ)
    (tzId : String) (maxDistance : ℚ) : WithTop ℚ :=
  match lookupPolygon c tzId with
  | none => ⊤
  | some polygon =>
    ((heading_go c polygon lat lon heading tzId maxDistance trialDistances : ℚ) : WithTop ℚ)

/-- Modelled from the spec (refinement comparison only, not from the
source): the heading-distance trial loop as §4.3 words it, with the
binary-search bracket starting at the *last inside trial distance*
(initially 0) rather than at 0. -/
def spec_heading_go (c : Coordinator) (polygon : Polygon) (lat lon heading : ℚ)
    (tzId : String) (maxDistance lastInside : ℚ) : List ℚ → ℚ
  | [] => maxDistance
  | d :: rest =>
    if d > maxDistance then maxDistance
    else
      let pr := c.project lat lon heading d
      if ¬ polygon.contains ⟨pr.2, pr.1⟩ then
        match find_timezone_at_point c pr.1 pr.2 with
        | some otherTz =>
          if otherTz ≠ tzId then
            let lh := bisect c polygon lat lon heading 10 (lastInside, d)
            (lh.1 + lh.2) / 2
          else spec_heading_go c polygon lat lon heading tzId maxDistance lastInside rest
        | none => spec_heading_go c polygon lat lon heading tzId maxDistance lastInside rest
      else spec_heading_go c polygon lat lon heading tzId maxDistance d rest

/-- Modelled from the spec (refinement comparison only): the
heading-distance entry point built on `spec_heading_go`, with the
initial last-inside distance 0. -/
def spec_heading_distance (c : Coordinator) (lat lon heading : ℚ)
    (tzId : String) (maxDistance : ℚ) : WithTop ℚ :=
  match lookupPolygon c tzId with
  | none => ⊤
  | some polygon =>
    ((spec_heading_go c polygon lat lon heading tzId maxDistance 0 trialDistances : ℚ) : WithTop ℚ)

/-- The fields of the `TimezoneData` dataclass that the tick logic
reads or writes (GPS echo fields and timestamps omitted). -/
structure TrackingData where
  currentTimezone : Option String
  detectedTimezone : Option String
  nearestOtherTimezone : Option String
  edgeDistance : WithTop ℚ
  headingDistance : WithTop ℚ
  effectiveDistance : WithTop ℚ
  pendingTimezone : Option String
  pendingCount : ℤ
  checkInterval : ℤ
deriving DecidableEq

/-- Fresh `TimezoneData()` at coordinator construction. -/
def initialData : TrackingData :=
  { currentTimezone := none, detectedTimezone := none, nearestOtherTimezone := none
    edgeDistance := ⊤, headingDistance := ⊤, effectiveDistance := ⊤
    pendingTimezone := none, pendingCount := 0, checkInterval := 3600 }

/-- `_update_ha_timezone(new_timezone)`: the external
`async_set_time_zone` call is modelled by its success flag `applyOk`;
`current_timezone` is assigned only after that call returns, so a
failing apply leaves it untouched.  Returns the updated data and the
boolean result. -/
def update_ha_timezone (applyOk : Bool) (s : TrackingData) (newTimezone : String) :
    TrackingData × Bool :=
  if applyOk then ({ s with currentTimezone := some newTimezone }, true)
  else (s, false)

/-- Result of one `async_update` tick: the published data (what
`_notify_listeners` exposes), the interval handed to
`_schedule_next_update`, and whether the "Timezone changed" event was
logged. -/
structure TickResult where
  data : TrackingData
  scheduled : ℤ
  changedEvent : Bool
deriving DecidableEq

/-- One `async_update` tick from the point where `detected_tz` has been
resolved (lines 432-501): distance bookkeeping, interval planning,
initial-acquisition adoption, then the hysteresis block.  `applyOk`
models whether `hass.config.async_set_time_zone` succeeds this tick and
`haTzDiffers` whether `hass.config.time_zone` differs from the detected
zone on initial acquisition. -/
def tick (minInterval maxInterval hysteresisCount : ℤ) (s : TrackingData)
    (detected : String) (edgeDist : WithTop ℚ) (nearestTz : Option String)
    (headingDistRaw : WithTop ℚ) (speed : ℚ) (applyOk haTzDiffers : Bool) : TickResult :=
  let headingDist := if speed > SPEED_STOPPED then headingDistRaw else ⊤
  let effectiveDist := min edgeDist headingDist
  let interval := calculate_check_interval minInterval maxInterval effectiveDist speed
  let s := { s with detectedTimezone := some detected, nearestOtherTimezone := nearestTz
                    edgeDistance := edgeDist, headingDistance := headingDist
                    effectiveDistance := effectiveDist, checkInterval := interval }
  let s :=
    if s.currentTimezone = none then
      let s1 := { s with currentTimezone := some detected }
      if haTzDiffers then (update_ha_timezone applyOk s1 detected).1 else s1
    else s
  if some detected ≠ s.currentTimezone then
    if some detected = s.pendingTimezone then
      let s2 := { s with pendingCount := s.pendingCount + 1 }
      if s2.pendingCount ≥ hysteresisCount then
        let res := update_ha_timezone applyOk s2 detected
        ⟨{ res.1 with pendingTimezone := none, pendingCount := 0 }, interval, res.2⟩
      else
        ⟨s2, min interval 30, false⟩
    else
      ⟨{ s with pendingTimezone := some detected, pendingCount := 1 }, min interval 30, false⟩
  else
    ⟨{ s with pendingTimezone := none, pendingCount := 0 }, interval, false⟩

/-- The TrackingState invariants of the spec's data model:
`pendingCount > 0 ⇒ pendingTimezone is set`, and a positive pending
count never has the pending zone equal to the confirmed zone. -/
def StateInv (s : TrackingData) : Prop :=
  (0 < s.pendingCount → s.pendingTimezone ≠ none) ∧
  (0 < s.pendingCount → s.pendingTimezone ≠ s.currentTimezone)

-- Concrete geometry instances used by witnesses and counterexamples:
-- two half-planes split at lon = 1.5 (the spec's adjacent-squares
-- scenario restricted to the traversal line), with planar projection.

/-- Zone "A": everything west of lon = 1.5. -/
def polyA : Polygon :=
  { contains := fun p => decide (p.lon < 1.5), nearestPt := fun p => p }

/-- Zone "B": everything at or east of lon = 1.5. -/
def polyB : Polygon :=
  { contains := fun p => decide (1.5 ≤ p.lon), nearestPt := fun p => ⟨1.5, p.lat⟩ }

/-- Two-zone coordinator with straight-line eastward projection. -/
def cEx : Coordinator :=
  { entries := [("A", polyA), ("B", polyB)]
    query := fun _ => [⟨0, by decide⟩, ⟨1, by decide⟩]
    queryNearest := fun _ _ => [⟨0, by decide⟩, ⟨1, by decide⟩]
    nearest := fun _ => some ⟨1, by decide⟩
    project := fun lat lon _ dist => (lat, lon + dist)
    hav := fun lat1 lon1 lat2 lon2 =>
      (lat2 - lat1) * (lat2 - lat1) + (lon2 - lon1) * (lon2 - lon1) }

/-- Variant of `cEx` whose k-nearest query only ever reports zone "A". -/
def cExOnlyA : Coordinator :=
  { cEx with queryNearest := fun _ _ => [⟨0, by decide⟩] }

/-- A confirmed `Stable("A")` tracking state. -/
def stableA : TrackingData := { initialData with currentTimezone := some "A" }

/-- `Pending("A", "B", 1)`: confirmed "A" with "B" pending once. -/
def pendingAB1 : TrackingData :=
  { stableA with pendingTimezone := some "B", pendingCount := 1 }

/-- First tick of the spec's hysteresis trace: detected "A" from
Stable("A") (hysteresisCount 2, successful applies, no movement). -/
def traceT1 : TickResult := tick 30 3600 2 stableA "A" ⊤ none ⊤ 0 true false

/-- Second tick: detected "B". -/
def traceT2 : TickResult := tick 30 3600 2 traceT1.data "B" ⊤ none ⊤ 0 true false

/-- Third tick of the [A, B, B] trace: detected "B" again. -/
def traceT3 : TickResult := tick 30 3600 2 traceT2.data "B" ⊤ none ⊤ 0 true false

/-- Third tick of the [A, B, A] trace: detected "A" again. -/
def traceT3Back : TickResult := tick 30 3600 2 traceT2.data "A" ⊤ none ⊤ 0 true false

-- ======================================================================
-- Theorems.
-- ======================================================================

lemma rat_floor_eq (q : ℚ) : Rat.floor q = ⌊q⌋ := rfl

lemma pyTrunc_eq (q : ℚ) : pyTrunc q = if q < 0 then ⌈q⌉ else ⌊q⌋ := by
  unfold pyTrunc
  split_ifs
  · rw [rat_floor_eq, Int.floor_neg, neg_neg]
  · rw [rat_floor_eq]

lemma pyTrunc_mono {q1 q2 : ℚ} (h : q1 ≤ q2) : pyTrunc q1 ≤ pyTrunc q2 := by
  rw [pyTrunc_eq, pyTrunc_eq]
  split_ifs with h1 h2
  · exact Int.ceil_le_ceil h
  · calc ⌈q1⌉ ≤ ⌈(0:ℚ)⌉ := Int.ceil_le_ceil (le_of_lt h1)
    _ = ⌊(0:ℚ)⌋ := by simp
    _ ≤ ⌊q2⌋ := Int.floor_le_floor (not_lt.mp h2)
  · exact absurd (lt_of_le_of_lt h ‹q2 < 0›) h1
  · exact Int.floor_le_floor h

/-- C8: every tick preserves the TrackingState invariants — a positive
pendingCount implies pendingTimezone is set, and pendingTimezone never
equals currentTimezone while pendingCount is positive.  This holds for
the tick's output from every input state (hence for every reachable
state) and every detected zone. -/
theorem tick_preserves_invariants_C8
    (minInterval maxInterval hysteresisCount : ℤ) (s : TrackingData) (detected : String)
    (edgeDist : WithTop ℚ) (nearestTz : Option String) (headingDistRaw : WithTop ℚ)
    (speed : ℚ) (applyOk haTzDiffers : Bool) :
    StateInv (tick minInterval maxInterval hysteresisCount s detected edgeDist nearestTz
      headingDistRaw speed applyOk haTzDiffers).data := by
  simp only [tick, update_ha_timezone, StateInv]
  split_ifs <;> simp_all
  all_goals
    rename_i hp hcount
    intro hpos
    rw [← hp]
    simp

/-- C4: with hysteresisCount = 2 and a successful external apply, the
detected sequence [A, B, B] from Stable(A) runs
Stable(A) → Pending(A,B,1) → Stable(B) with the changed event emitted
only on the last tick, and [A, B, A] runs
Stable(A) → Pending(A,B,1) → Stable(A) with no changed event. -/
theorem hysteresis_trace_C4 :
    (traceT1.data.currentTimezone = some "A" ∧ traceT1.data.pendingTimezone = none ∧
      traceT1.data.pendingCount = 0 ∧ traceT1.changedEvent = false) ∧
    (traceT2.data.currentTimezone = some "A" ∧ traceT2.data.pendingTimezone = some "B" ∧
      traceT2.data.pendingCount = 1 ∧ traceT2.changedEvent = false) ∧
    (traceT3.data.currentTimezone = some "B" ∧ traceT3.data.pendingTimezone = none ∧
      traceT3.data.pendingCount = 0 ∧ traceT3.changedEvent = true) ∧
    (traceT3Back.data.currentTimezone = some "A" ∧ traceT3Back.data.pendingTimezone = none ∧
      traceT3Back.data.pendingCount = 0 ∧ traceT3Back.changedEvent = false) := by
  with_unfolding_all decide

/-- C9: on any tick where the pending count reaches hysteresisCount,
pendingTimezone and pendingCount are reset regardless of whether the
external apply succeeds, and a failed apply leaves the confirmed zone
unchanged, so the same change restarts from scratch: a following tick
detecting the same zone again starts at pendingCount 1. -/
theorem confirm_resets_pending_C9
    (minInterval maxInterval hysteresisCount : ℤ) (s : TrackingData)
    (detected cur : String) (edgeDist : WithTop ℚ) (nearestTz : Option String)
    (headingDistRaw : WithTop ℚ) (speed : ℚ) (applyOk : Bool)
    (hcur : s.currentTimezone = some cur) (hne : detected ≠ cur)
    (hp : s.pendingTimezone = some detected)
    (hc : hysteresisCount ≤ s.pendingCount + 1)
    (edgeDist2 : WithTop ℚ) (nearestTz2 : Option String) (headingDistRaw2 : WithTop ℚ)
    (speed2 : ℚ) (applyOk2 haTzDiffers2 : Bool) :
    let r := tick minInterval maxInterval hysteresisCount s detected edgeDist nearestTz
      headingDistRaw speed applyOk false
    let r2 := tick minInterval maxInterval hysteresisCount r.data detected edgeDist2
      nearestTz2 headingDistRaw2 speed2 applyOk2 haTzDiffers2
    (r.data.pendingTimezone = none ∧ r.data.pendingCount = 0) ∧
    (applyOk = false →
      r.data.currentTimezone = some cur ∧
      r2.data.pendingTimezone = some detected ∧ r2.data.pendingCount = 1) := by
  have hne' : some detected ≠ s.currentTimezone := by
    rw [hcur]; simpa using hne
  simp only [tick, update_ha_timezone]
  simp only [hcur, hp, reduceCtorEq, if_neg, if_pos, hne', not_false_eq_true, ite_not]
  simp [hne', hc, hne]
  rcases applyOk with _ | _ <;> simp [hcur, hne]

/-- C9 witness: the reset and restart-from-scratch behaviour at the
concrete Pending("A","B",1) state with hysteresisCount 2 and a failing
apply. -/
theorem confirm_resets_pending_C9_witness :
    pendingAB1.currentTimezone = some "A" ∧ ("B" ≠ "A") ∧
    pendingAB1.pendingTimezone = some "B" ∧ ((2:ℤ) ≤ pendingAB1.pendingCount + 1) ∧
    (let r := tick 30 3600 2 pendingAB1 "B" ⊤ none ⊤ 0 false false
     let r2 := tick 30 3600 2 r.data "B" ⊤ none ⊤ 0 false false
     (r.data.pendingTimezone = none ∧ r.data.pendingCount = 0) ∧
     (false = false →
       r.data.currentTimezone = some "A" ∧
       r2.data.pendingTimezone = some "B" ∧ r2.data.pendingCount = 1)) :=
  ⟨by with_unfolding_all decide, by with_unfolding_all decide,
   by with_unfolding_all decide, by with_unfolding_all decide,
   confirm_resets_pending_C9 30 3600 2 pendingAB1 "B" "A" ⊤ none ⊤ 0 false
     (by with_unfolding_all decide) (by with_unfolding_all decide)
     (by with_unfolding_all decide) (by with_unfolding_all decide) ⊤ none ⊤ 0 false false⟩

/-- C1 counterexample: in Pending("A","B",1) with hysteresisCount 2, a
tick detecting "B" whose external apply fails leaves the locally
confirmed currentTimezone at "A" — it is not updated to "B" as the
claim states. -/
theorem apply_failure_counterexample_C1 :
    (tick 30 3600 2 pendingAB1 "B" ⊤ none ⊤ 0 false false).data.currentTimezone = some "A" ∧
    (tick 30 3600 2 pendingAB1 "B" ⊤ none ⊤ 0 false false).data.currentTimezone ≠ some "B" := by
  with_unfolding_all decide

/-- C1 (amended): when a pending change reaches hysteresisCount and the
external apply fails, currentTimezone keeps its previous confirmed
value (the assignment happens only after a successful apply), no change
event is emitted, and the pending state is still cleared. -/
theorem apply_failure_keeps_current_C1
    (minInterval maxInterval hysteresisCount : ℤ) (s : TrackingData)
    (detected cur : String) (edgeDist : WithTop ℚ) (nearestTz : Option String)
    (headingDistRaw : WithTop ℚ) (speed : ℚ)
    (hcur : s.currentTimezone = some cur) (hne : detected ≠ cur)
    (hp : s.pendingTimezone = some detected)
    (hc : hysteresisCount ≤ s.pendingCount + 1) :
    let r := tick minInterval maxInterval hysteresisCount s detected edgeDist nearestTz
      headingDistRaw speed false false
    r.data.currentTimezone = some cur ∧ r.data.pendingTimezone = none ∧
    r.data.pendingCount = 0 ∧ r.changedEvent = false := by
  have hne' : some detected ≠ s.currentTimezone := by
    rw [hcur]; simpa using hne
  simp only [tick, update_ha_timezone]
  simp [hcur, hp, hne', hc, hne]

/-- C1 witness: the amended behaviour at the concrete
Pending("A","B",1) state with hysteresisCount 2. -/
theorem apply_failure_keeps_current_C1_witness :
    pendingAB1.currentTimezone = some "A" ∧ ("B" ≠ "A") ∧
    pendingAB1.pendingTimezone = some "B" ∧ ((2:ℤ) ≤ pendingAB1.pendingCount + 1) ∧
    (let r := tick 30 3600 2 pendingAB1 "B" ⊤ none ⊤ 0 false false
     r.data.currentTimezone = some "A" ∧ r.data.pendingTimezone = none ∧
     r.data.pendingCount = 0 ∧ r.changedEvent = false) :=
  ⟨by with_unfolding_all decide, by with_unfolding_all decide,
   by with_unfolding_all decide, by with_unfolding_all decide,
   apply_failure_keeps_current_C1 30 3600 2 pendingAB1 "B" "A" ⊤ none ⊤ 0
     (by with_unfolding_all decide) (by with_unfolding_all decide)
     (by with_unfolding_all decide) (by with_unfolding_all decide)⟩

/-- C10: on any tick where the hysteresis logic caps the scheduled
interval at 30 s (a new pending zone, or a pending zone still awaiting
confirmation), the published data keeps the uncapped IntervalPlanner
output, so the published check_interval exceeds the scheduled interval
whenever the planner output is above 30 s. -/
theorem published_interval_uncapped_C10
    (minInterval maxInterval hysteresisCount : ℤ) (s : TrackingData)
    (detected cur : String) (edgeDist : WithTop ℚ) (nearestTz : Option String)
    (headingDistRaw : WithTop ℚ) (speed : ℚ) (applyOk haTzDiffers : Bool)
    (hcur : s.currentTimezone = some cur) (hne : detected ≠ cur)
    (hcap : s.pendingTimezone ≠ some detected ∨ s.pendingCount + 1 < hysteresisCount) :
    let planner := calculate_check_interval minInterval maxInterval
      (min edgeDist (if speed > SPEED_STOPPED then headingDistRaw else ⊤)) speed
    let r := tick minInterval maxInterval hysteresisCount s detected edgeDist nearestTz
      headingDistRaw speed applyOk haTzDiffers
    r.data.checkInterval = planner ∧ r.scheduled = min planner 30 ∧
    (30 < planner → r.scheduled < r.data.checkInterval) := by
  have hne' : some detected ≠ s.currentTimezone := by
    rw [hcur]; simpa using hne
  simp only [tick, update_ha_timezone]
  rcases hcap with hcap | hcap
  · have hp' : some detected ≠ s.pendingTimezone := fun h => hcap h.symm
    simp [hcur, hne, hne', hp']
  · by_cases hp : some detected = s.pendingTimezone
    · simp [hcur, hne, hne', hp.symm, not_le.mpr hcap]
    · simp [hcur, hne, hne', hp]

/-- C10 witness: from Stable("A") with no movement data the planner
returns 3600 s, the scheduled interval is capped at 30 s, and the
published check_interval stays 3600 s. -/
theorem published_interval_uncapped_C10_witness :
    stableA.currentTimezone = some "A" ∧ ("B" ≠ "A") ∧
    (stableA.pendingTimezone ≠ some "B" ∨ stableA.pendingCount + 1 < 2) ∧
    (let planner := calculate_check_interval 30 3600
      (min ⊤ (if (0:ℚ) > SPEED_STOPPED then ⊤ else ⊤)) 0
     let r := tick 30 3600 2 stableA "B" ⊤ none ⊤ 0 true false
     r.data.checkInterval = planner ∧ r.scheduled = min planner 30 ∧
     (30 < planner → r.scheduled < r.data.checkInterval)) :=
  ⟨by with_unfolding_all decide, by with_unfolding_all decide,
   Or.inl (by with_unfolding_all decide),
   published_interval_uncapped_C10 30 3600 2 stableA "B" "A" ⊤ none ⊤ 0 true false
     (by with_unfolding_all decide) (by with_unfolding_all decide)
     (Or.inl (by with_unfolding_all decide))⟩

/-- C2 counterexample: at distance 1 mi and speed 70 mph (distance < 2
and speed > 65) the combined factor is 0.02, not the 0.01 the claim
states, because the second override is not an else-branch of the
first. -/
theorem override_counterexample_C2 :
    combined_factor ((1 : ℚ) : WithTop ℚ) 70 = 0.02 ∧
    combined_factor ((1 : ℚ) : WithTop ℚ) 70 ≠ 0.01 := by
  with_unfolding_all decide

/-- C2 (amended): the two overrides are sequential `if`s, the second
overwriting the first, so distance < 2 mi with 3 mph < speed ≤ 65 mph
forces combined = 0.01, while distance < 6 mi (in particular
distance < 2 mi) with speed > 65 mph forces combined = 0.02. -/
theorem override_order_C2 (distance : WithTop ℚ) (speed : ℚ) :
    (distance < (DISTANCE_VERY_CLOSE : WithTop ℚ) → SPEED_STOPPED < speed →
      speed ≤ SPEED_FAST → combined_factor distance speed = 0.01) ∧
    (distance < (DISTANCE_CLOSE : WithTop ℚ) → SPEED_FAST < speed →
      combined_factor distance speed = 0.02) := by
  simp only [combined_factor]
  constructor
  · intro h1 h2 h3
    rw [if_neg (fun h => absurd h.2 (not_lt.mpr h3)), if_pos ⟨h1, h2⟩]
  · intro h1 h2
    rw [if_pos ⟨h1, h2⟩]

/-- C2 witness: both override outcomes at distance 1 mi, for speeds 10
and 70 mph. -/
theorem override_order_C2_witness :
    (((1 : ℚ) : WithTop ℚ) < (DISTANCE_VERY_CLOSE : WithTop ℚ) ∧ SPEED_STOPPED < (10:ℚ) ∧
      (10:ℚ) ≤ SPEED_FAST ∧ combined_factor ((1 : ℚ) : WithTop ℚ) 10 = 0.01) ∧
    (((1 : ℚ) : WithTop ℚ) < (DISTANCE_CLOSE : WithTop ℚ) ∧ SPEED_FAST < (70:ℚ) ∧
      combined_factor ((1 : ℚ) : WithTop ℚ) 70 = 0.02) :=
  ⟨⟨by with_unfolding_all decide, by with_unfolding_all decide,
    by with_unfolding_all decide,
    (override_order_C2 ((1 : ℚ) : WithTop ℚ) 10).1 (by with_unfolding_all decide)
      (by with_unfolding_all decide) (by with_unfolding_all decide)⟩,
   ⟨by with_unfolding_all decide, by with_unfolding_all decide,
    (override_order_C2 ((1 : ℚ) : WithTop ℚ) 70).2 (by with_unfolding_all decide)
      (by with_unfolding_all decide)⟩⟩

lemma combined_factor_eq (distance : WithTop ℚ) (speed : ℚ) :
    combined_factor distance speed =
      if distance < (DISTANCE_CLOSE : WithTop ℚ) ∧ speed > SPEED_FAST then 0.02
      else if distance < (DISTANCE_VERY_CLOSE : WithTop ℚ) ∧ speed > SPEED_STOPPED then 0.01
      else min (dist_factor distance)
        (speed_factor speed * 0.7 + dist_factor distance * 0.3) := rfl

lemma dist_factor_le_one (d : WithTop ℚ) : dist_factor d ≤ 1 := by
  unfold dist_factor
  split_ifs <;> norm_num

lemma dist_factor_ge (d : WithTop ℚ) : 0.02 ≤ dist_factor d := by
  unfold dist_factor
  split_ifs <;> norm_num

lemma speed_factor_ge (s : ℚ) : 0.2 ≤ speed_factor s := by
  unfold speed_factor
  split_ifs <;> norm_num

lemma dist_factor_le_008 {d : WithTop ℚ} (h : d < (DISTANCE_CLOSE : WithTop ℚ)) :
    dist_factor d ≤ 0.08 := by
  unfold dist_factor
  split_ifs with h1 h2 h3 h4 <;> first | norm_num | exact absurd h h2

lemma dist_factor_le_025 {d : WithTop ℚ} (h : d < (DISTANCE_MEDIUM : WithTop ℚ)) :
    dist_factor d ≤ 0.25 := by
  unfold dist_factor
  split_ifs with h1 h2 h3 h4 <;> first | norm_num | exact absurd h h3

lemma dist_factor_le_05 {d : WithTop ℚ} (h : d < (DISTANCE_FAR : WithTop ℚ)) :
    dist_factor d ≤ 0.5 := by
  unfold dist_factor
  split_ifs with h1 h2 h3 h4 <;> first | norm_num | exact absurd h h4

lemma dist_factor_mono {d1 d2 : WithTop ℚ} (h : d1 ≤ d2) :
    dist_factor d1 ≤ dist_factor d2 := by
  by_cases h2 : d2 < (DISTANCE_VERY_CLOSE : WithTop ℚ)
  · unfold dist_factor
    rw [if_pos (lt_of_le_of_lt h h2), if_pos h2]
  · by_cases h2b : d2 < (DISTANCE_CLOSE : WithTop ℚ)
    · rw [show dist_factor d2 = 0.08 from by
        unfold dist_factor; rw [if_neg h2, if_pos h2b]]
      exact dist_factor_le_008 (lt_of_le_of_lt h h2b)
    · by_cases h2c : d2 < (DISTANCE_MEDIUM : WithTop ℚ)
      · rw [show dist_factor d2 = 0.25 from by
          unfold dist_factor; rw [if_neg h2, if_neg h2b, if_pos h2c]]
        exact dist_factor_le_025 (lt_of_le_of_lt h h2c)
      · by_cases h2d : d2 < (DISTANCE_FAR : WithTop ℚ)
        · rw [show dist_factor d2 = 0.5 from by
            unfold dist_factor; rw [if_neg h2, if_neg h2b, if_neg h2c, if_pos h2d]]
          exact dist_factor_le_05 (lt_of_le_of_lt h h2d)
        · rw [show dist_factor d2 = 1 from by
            unfold dist_factor; rw [if_neg h2, if_neg h2b, if_neg h2c, if_neg h2d]]
          exact dist_factor_le_one d1

lemma speed_factor_ge_08 {s : ℚ} (h : s < SPEED_SLOW) : 0.8 ≤ speed_factor s := by
  unfold speed_factor
  split_ifs with h1 h2 h3 <;> first | norm_num | exact absurd h h2

lemma speed_factor_ge_05 {s : ℚ} (h : s < SPEED_FAST) : 0.5 ≤ speed_factor s := by
  unfold speed_factor
  split_ifs with h1 h2 h3 <;> first | norm_num | exact absurd h h3

lemma speed_factor_anti {s1 s2 : ℚ} (h : s1 ≤ s2) : speed_factor s2 ≤ speed_factor s1 := by
  by_cases h2 : s2 < SPEED_STOPPED
  · unfold speed_factor
    rw [if_pos (lt_of_le_of_lt h h2), if_pos h2]
  · by_cases h2b : s2 < SPEED_SLOW
    · rw [show speed_factor s2 = 0.8 from by
        unfold speed_factor; rw [if_neg h2, if_pos h2b]]
      exact speed_factor_ge_08 (lt_of_le_of_lt h h2b)
    · by_cases h2c : s2 < SPEED_FAST
      · rw [show speed_factor s2 = 0.5 from by
          unfold speed_factor; rw [if_neg h2, if_neg h2b, if_pos h2c]]
        exact speed_factor_ge_05 (lt_of_le_of_lt h h2c)
      · rw [show speed_factor s2 = 0.2 from by
          unfold speed_factor; rw [if_neg h2, if_neg h2b, if_neg h2c]]
        exact speed_factor_ge s1

lemma base_ge (d : WithTop ℚ) (s : ℚ) :
    (0.02 : ℚ) ≤ min (dist_factor d) (speed_factor s * 0.7 + dist_factor d * 0.3) := by
  refine le_min (dist_factor_ge d) ?_
  have h1 := speed_factor_ge s
  have h2 := dist_factor_ge d
  linarith

lemma combined_ge (d : WithTop ℚ) (s : ℚ) : 0.01 ≤ combined_factor d s := by
  rw [combined_factor_eq]
  split_ifs
  · norm_num
  · norm_num
  · exact le_trans (by norm_num) (base_ge d s)

lemma combined_mono_dist (s : ℚ) {d1 d2 : WithTop ℚ} (h : d1 ≤ d2) :
    combined_factor d1 s ≤ combined_factor d2 s := by
  have hbase : min (dist_factor d1) (speed_factor s * 0.7 + dist_factor d1 * 0.3)
      ≤ min (dist_factor d2) (speed_factor s * 0.7 + dist_factor d2 * 0.3) := by
    have hdf := dist_factor_mono h
    exact min_le_min hdf (by linarith)
  by_cases c2b : d2 < (DISTANCE_CLOSE : WithTop ℚ) ∧ s > SPEED_FAST
  · rw [combined_factor_eq d2, if_pos c2b]
    by_cases c2a : d1 < (DISTANCE_CLOSE : WithTop ℚ) ∧ s > SPEED_FAST
    · rw [combined_factor_eq d1, if_pos c2a]
    · exact absurd ⟨lt_of_le_of_lt h c2b.1, c2b.2⟩ c2a
  · rw [combined_factor_eq d2, if_neg c2b]
    by_cases c2a : d1 < (DISTANCE_CLOSE : WithTop ℚ) ∧ s > SPEED_FAST
    · rw [combined_factor_eq d1, if_pos c2a]
      have hvc : (DISTANCE_VERY_CLOSE : WithTop ℚ) < (DISTANCE_CLOSE : WithTop ℚ) := by
        rw [WithTop.coe_lt_coe]
        norm_num [DISTANCE_VERY_CLOSE, DISTANCE_CLOSE]
      have hn1 : ¬(d2 < (DISTANCE_VERY_CLOSE : WithTop ℚ) ∧ s > SPEED_STOPPED) := by
        rintro ⟨hvc2, _⟩
        exact c2b ⟨lt_trans hvc2 hvc, c2a.2⟩
      rw [if_neg hn1]
      exact le_trans (by norm_num) (base_ge d2 s)
    · rw [combined_factor_eq d1, if_neg c2a]
      by_cases c1a : d1 < (DISTANCE_VERY_CLOSE : WithTop ℚ) ∧ s > SPEED_STOPPED
      · rw [if_pos c1a]
        split_ifs with c1b
        · norm_num
        · exact le_trans (by norm_num) (base_ge d2 s)
      · rw [if_neg c1a]
        by_cases c1b : d2 < (DISTANCE_VERY_CLOSE : WithTop ℚ) ∧ s > SPEED_STOPPED
        · exact absurd ⟨lt_of_le_of_lt h c1b.1, c1b.2⟩ c1a
        · rw [if_neg c1b]
          exact hbase

lemma combined_anti_speed (d : WithTop ℚ) {s1 s2 : ℚ} (h12 : s1 ≤ s2)
    (h65 : s2 < SPEED_FAST) :
    combined_factor d s2 ≤ combined_factor d s1 := by
  have hbase : min (dist_factor d) (speed_factor s2 * 0.7 + dist_factor d * 0.3)
      ≤ min (dist_factor d) (speed_factor s1 * 0.7 + dist_factor d * 0.3) := by
    have hsf := speed_factor_anti h12
    exact min_le_min le_rfl (by linarith)
  have hc2a : ¬(d < (DISTANCE_CLOSE : WithTop ℚ) ∧ s2 > SPEED_FAST) := by
    rintro ⟨_, hh⟩
    exact absurd h65 (not_lt.mpr (le_of_lt hh))
  have hc2b : ¬(d < (DISTANCE_CLOSE : WithTop ℚ) ∧ s1 > SPEED_FAST) := by
    rintro ⟨_, hh⟩
    exact absurd (lt_of_lt_of_le hh h12) (not_lt.mpr (le_of_lt h65))
  rw [combined_factor_eq d s2, if_neg hc2a, combined_factor_eq d s1, if_neg hc2b]
  by_cases c1a : d < (DISTANCE_VERY_CLOSE : WithTop ℚ) ∧ s2 > SPEED_STOPPED
  · rw [if_pos c1a]
    split_ifs with c1b
    · norm_num
    · exact le_trans (by norm_num) (base_ge d s1)
  · rw [if_neg c1a]
    by_cases c1b : d < (DISTANCE_VERY_CLOSE : WithTop ℚ) ∧ s1 > SPEED_STOPPED
    · exact absurd ⟨c1b.1, lt_of_lt_of_le c1b.2 h12⟩ c1a
    · rw [if_neg c1b]
      exact hbase

lemma raw_mono (min_interval max_interval : ℤ)
    (hdiff : (0:ℚ) ≤ (max_interval : ℚ) - (min_interval : ℚ)) {c1 c2 : ℚ} (h : c1 ≤ c2) :
    Rat.ofInt min_interval + (Rat.ofInt max_interval - Rat.ofInt min_interval) * c1
      ≤ Rat.ofInt min_interval + (Rat.ofInt max_interval - Rat.ofInt min_interval) * c2 := by
  simp only [Rat.ofInt_eq_cast]
  have := mul_le_mul_of_nonneg_left h hdiff
  linarith

lemma clamp_mono (min_interval max_interval : ℤ) {a b : ℚ} (h : a ≤ b) :
    max min_interval (min max_interval (pyTrunc a))
      ≤ max min_interval (min max_interval (pyTrunc b)) :=
  max_le_max le_rfl (min_le_min le_rfl (pyTrunc_mono h))

lemma cci_top_eq (min_interval max_interval : ℤ) (s : ℚ) :
    calculate_check_interval min_interval max_interval ⊤ s =
      max min_interval (min max_interval (pyTrunc
        (Rat.ofInt min_interval + (Rat.ofInt max_interval - Rat.ofInt min_interval) *
          combined_factor ⊤ s))) := rfl

lemma cci_coe_eq (min_interval max_interval : ℤ) (q : ℚ) (s : ℚ) :
    calculate_check_interval min_interval max_interval ((q : ℚ) : WithTop ℚ) s =
      max min_interval (min max_interval (pyTrunc
        (if s > SPEED_STOPPED then
          min (Rat.ofInt min_interval +
              (Rat.ofInt max_interval - Rat.ofInt min_interval) *
                combined_factor ((q : ℚ) : WithTop ℚ) s)
            (max (Rat.ofInt min_interval) (q / s * 3600 / 4))
        else Rat.ofInt min_interval +
          (Rat.ofInt max_interval - Rat.ofInt min_interval) *
            combined_factor ((q : ℚ) : WithTop ℚ) s))) := rfl

/-- C5: with fixed minInterval < maxInterval, the planner interval is
monotonically non-increasing as distance decreases for every fixed
speed, and monotonically non-increasing as speed increases for every
fixed (non-negative) distance when the speeds stay below the fast
threshold (65 mph). -/
theorem interval_monotone_C5 (min_interval max_interval : ℤ)
    (hlt : min_interval < max_interval) :
    (∀ (speed : ℚ) (d1 d2 : WithTop ℚ), d1 ≤ d2 →
      calculate_check_interval min_interval max_interval d1 speed ≤
        calculate_check_interval min_interval max_interval d2 speed) ∧
    (∀ (d : WithTop ℚ) (s1 s2 : ℚ), (0 : WithTop ℚ) ≤ d → s1 ≤ s2 → s2 < SPEED_FAST →
      calculate_check_interval min_interval max_interval d s2 ≤
        calculate_check_interval min_interval max_interval d s1) := by
  have hdiff : (0:ℚ) ≤ (max_interval : ℚ) - (min_interval : ℚ) := by
    have : (min_interval : ℚ) < (max_interval : ℚ) := Int.cast_lt.mpr hlt
    linarith
  constructor
  · intro s d1 d2 h
    induction d2 using WithTop.recTopCoe with
    | top =>
      induction d1 using WithTop.recTopCoe with
      | top => exact le_rfl
      | coe q1 =>
        rw [cci_coe_eq, cci_top_eq]
        apply clamp_mono
        have hbase := raw_mono min_interval max_interval hdiff
          (combined_mono_dist s (le_top (a := ((q1 : ℚ) : WithTop ℚ))))
        split_ifs with hs
        · exact le_trans (min_le_left _ _) hbase
        · exact hbase
    | coe q2 =>
      induction d1 using WithTop.recTopCoe with
      | top => exact absurd h (by simp)
      | coe q1 =>
        have hq : q1 ≤ q2 := WithTop.coe_le_coe.mp h
        rw [cci_coe_eq, cci_coe_eq]
        apply clamp_mono
        have hbase := raw_mono min_interval max_interval hdiff (combined_mono_dist s h)
        split_ifs with hs
        · refine min_le_min hbase (max_le_max le_rfl ?_)
          have hs0 : (0:ℚ) < s := lt_trans (by norm_num [SPEED_STOPPED]) hs
          have hdd : q1 / s ≤ q2 / s := by
            rw [div_le_div_iff hs0 hs0]
            exact mul_le_mul_of_nonneg_right hq (le_of_lt hs0)
          linarith
        · exact hbase
  · intro d s1 s2 hd h12 h65
    induction d using WithTop.recTopCoe with
    | top =>
      rw [cci_top_eq, cci_top_eq]
      exact clamp_mono _ _ (raw_mono min_interval max_interval hdiff
        (combined_anti_speed ⊤ h12 h65))
    | coe q =>
      have hq0 : (0:ℚ) ≤ q := by
        rw [← WithTop.coe_zero] at hd
        exact WithTop.coe_le_coe.mp hd
      rw [cci_coe_eq, cci_coe_eq]
      apply clamp_mono
      have hbase := raw_mono min_interval max_interval hdiff
        (combined_anti_speed ((q : ℚ) : WithTop ℚ) h12 h65)
      by_cases hs2 : s2 > SPEED_STOPPED
      · rw [if_pos hs2]
        by_cases hs1 : s1 > SPEED_STOPPED
        · rw [if_pos hs1]
          refine min_le_min hbase (max_le_max le_rfl ?_)
          have h10 : (0:ℚ) < s1 := lt_trans (by norm_num [SPEED_STOPPED]) hs1
          have h20 : (0:ℚ) < s2 := lt_of_lt_of_le h10 h12
          have hdd : q / s2 ≤ q / s1 := by
            rw [div_le_div_iff h20 h10]
            exact mul_le_mul_of_nonneg_left h12 hq0
          linarith
        · rw [if_neg hs1]
          exact le_trans (min_le_left _ _) hbase
      · have hs1 : ¬ s1 > SPEED_STOPPED := fun hh => hs2 (lt_of_lt_of_le hh h12)
        rw [if_neg hs2, if_neg hs1]
        exact hbase

/-- C5 witness: both monotonicity parts at 30/3600 s bounds, distances
1 and 10 mi, speeds 5 and 20 mph. -/
theorem interval_monotone_C5_witness :
    ((30:ℤ) < 3600) ∧
    (((1:ℚ) : WithTop ℚ) ≤ ((10:ℚ) : WithTop ℚ) ∧
      calculate_check_interval 30 3600 ((1:ℚ) : WithTop ℚ) 0 ≤
        calculate_check_interval 30 3600 ((10:ℚ) : WithTop ℚ) 0) ∧
    ((0 : WithTop ℚ) ≤ ((10:ℚ) : WithTop ℚ) ∧ (5:ℚ) ≤ 20 ∧ (20:ℚ) < SPEED_FAST ∧
      calculate_check_interval 30 3600 ((10:ℚ) : WithTop ℚ) 20 ≤
        calculate_check_interval 30 3600 ((10:ℚ) : WithTop ℚ) 5) :=
  ⟨by decide,
   ⟨by decide,
    (interval_monotone_C5 30 3600 (by decide)).1 0 ((1:ℚ) : WithTop ℚ) ((10:ℚ) : WithTop ℚ)
      (by decide)⟩,
   ⟨by decide, by decide, by with_unfolding_all decide,
    (interval_monotone_C5 30 3600 (by decide)).2 ((10:ℚ) : WithTop ℚ) 5 20
      (by decide) (by decide) (by with_unfolding_all decide)⟩⟩

lemma boundary_fold_ne (c : Coordinator) (lat lon : ℚ) (tzId : String)
    (l : List (Fin c.entries.length)) (acc : WithTop ℚ × Option String)
    (hacc : acc.2 ≠ some tzId) :
    (boundary_fold c lat lon tzId l acc).2 ≠ some tzId := by
  induction l generalizing acc with
  | nil => simpa [boundary_fold] using hacc
  | cons i rest ih =>
    obtain ⟨minD, nTz⟩ := acc
    by_cases hi : tzAt c i = tzId
    · simpa [boundary_fold, hi] using ih _ hacc
    · simp only [boundary_fold, if_neg hi]
      split_ifs
      · exact ih _ (by simpa using fun h => hi h)
      · exact ih _ hacc

lemma boundary_fold_skip (c : Coordinator) (lat lon : ℚ) (tzId : String)
    (l : List (Fin c.entries.length)) (acc : WithTop ℚ × Option String)
    (hl : ∀ i ∈ l, tzAt c i = tzId) :
    boundary_fold c lat lon tzId l acc = acc := by
  induction l generalizing acc with
  | nil => obtain ⟨minD, nTz⟩ := acc; rfl
  | cons i rest ih =>
    obtain ⟨minD, nTz⟩ := acc
    simp only [boundary_fold, if_pos (hl i (by simp))]
    exact ih _ (fun j hj => hl j (by simp [hj]))

/-- C7: the edge-distance search never reports the current timezone as
the nearest other zone (candidates equal to `currentTz` are skipped
before any distance is taken), and when none of the k nearest
candidates (k = min(10, index size)) has a different id it returns
(+infinity, nothing). -/
theorem edge_distance_C7 (c : Coordinator) (lat lon : ℚ) (tzId : String) :
    (calculate_distance_to_boundary c lat lon tzId).2 ≠ some tzId ∧
    ((∀ i ∈ c.queryNearest ⟨lon, lat⟩ (min 10 c.entries.length), tzAt c i = tzId) →
      calculate_distance_to_boundary c lat lon tzId = (⊤, none)) := by
  unfold calculate_distance_to_boundary
  split_ifs with h
  · simp
  · exact ⟨boundary_fold_ne _ _ _ _ _ _ (by simp), fun hall =>
      boundary_fold_skip _ _ _ _ _ _ hall⟩

/-- C7 witness: with a k-nearest query that only reports zone "A", the
search from inside "A" returns (+infinity, nothing). -/
theorem edge_distance_C7_witness :
    (∀ i ∈ cExOnlyA.queryNearest ⟨0.5, 0⟩ (min 10 cExOnlyA.entries.length),
      tzAt cExOnlyA i = "A") ∧
    calculate_distance_to_boundary cExOnlyA 0 0.5 "A" = (⊤, none) :=
  ⟨by with_unfolding_all decide,
   (edge_distance_C7 cExOnlyA 0 0.5 "A").2 (by with_unfolding_all decide)⟩

/-- C6: the resolver tests exact containment over the spatial-index
candidates in query order and returns the first containing polygon's
id; with no containing candidate it returns the nearest polygon's id;
and (given the spatial-index contract that `nearest` answers on a
non-empty index) it returns nothing if and only if the index is
empty. -/
theorem resolver_C6 (c : Coordinator) (lat lon : ℚ)
    (hnearest : c.entries ≠ [] → (c.nearest ⟨lon, lat⟩).isSome) :
    (∀ i, (c.query ⟨lon, lat⟩).find? (fun j => (polyAt c j).contains ⟨lon, lat⟩) = some i →
      find_timezone_at_point c lat lon = some (tzAt c i)) ∧
    ((c.query ⟨lon, lat⟩).find? (fun j => (polyAt c j).contains ⟨lon, lat⟩) = none →
      c.entries ≠ [] →
      find_timezone_at_point c lat lon = (c.nearest ⟨lon, lat⟩).map (tzAt c)) ∧
    (find_timezone_at_point c lat lon = none ↔ c.entries = []) := by
  unfold find_timezone_at_point
  by_cases hemp : c.entries.isEmpty
  · have hnil : c.entries = [] := List.isEmpty_iff.mp hemp
    refine ⟨?_, ?_, ?_⟩
    · intro i
      have hlen : c.entries.length = 0 := by rw [hnil]; rfl
      exact absurd i.isLt (by omega)
    · intro _ hne
      exact absurd hnil hne
    · simp [hemp, hnil]
  · have hnil : c.entries ≠ [] := by simpa [List.isEmpty_iff] using hemp
    simp only [hemp, Bool.false_eq_true, if_false]
    refine ⟨?_, ?_, ?_⟩
    · intro i hfind
      simp [hfind]
    · intro hfind _
      simp [hfind]
    · cases hfind : (c.query ⟨lon, lat⟩).find? (fun j => (polyAt c j).contains ⟨lon, lat⟩) with
      | some i => simp [hfind, hnil]
      | none =>
        obtain ⟨k, hk⟩ := Option.isSome_iff_exists.mp (hnearest hnil)
        simp [hfind, hk, hnil]

/-- C6 witness: in the two-zone instance the resolver settles a point
inside "A", and the empty-index characterization holds there. -/
theorem resolver_C6_witness :
    (cEx.entries ≠ [] → (cEx.nearest ⟨0.5, 0⟩).isSome) ∧
    (find_timezone_at_point cEx 0 0.5 = none ↔ cEx.entries = []) :=
  ⟨fun _ => by with_unfolding_all decide,
   (resolver_C6 cEx 0 0.5 (fun _ => by with_unfolding_all decide)).2.2⟩

lemma bisect_width (c : Coordinator) (polygon : Polygon) (lat lon heading : ℚ)
    (n : ℕ) : ∀ low high : ℚ,
    (bisect c polygon lat lon heading n (low, high)).2 -
      (bisect c polygon lat lon heading n (low, high)).1 = (high - low) / 2 ^ n := by
  induction n with
  | zero => intro low high; simp [bisect]
  | succ n ih =>
    intro low high
    simp only [bisect]
    split_ifs
    · rw [ih]; ring
    · rw [ih]; ring

lemma heading_go_first (c : Coordinator) (polygon : Polygon) (lat lon heading : ℚ)
    (tzId : String) (maxDistance : ℚ) (pre post : List ℚ) (d : ℚ)
    (hpre : ∀ x ∈ pre, ¬ x > maxDistance ∧
      polygon.contains ⟨(c.project lat lon heading x).2,
        (c.project lat lon heading x).1⟩ = true)
    (hd : ¬ d > maxDistance)
    (hout : polygon.contains ⟨(c.project lat lon heading d).2,
      (c.project lat lon heading d).1⟩ = false)
    (hres : ∃ otherTz, find_timezone_at_point c (c.project lat lon heading d).1
      (c.project lat lon heading d).2 = some otherTz ∧ otherTz ≠ tzId) :
    heading_go c polygon lat lon heading tzId maxDistance (pre ++ d :: post)
      = ((bisect c polygon lat lon heading 10 (0, d)).1 +
         (bisect c polygon lat lon heading 10 (0, d)).2) / 2 := by
  induction pre with
  | nil =>
    obtain ⟨otherTz, hfind, hne⟩ := hres
    simp [heading_go, hd, hout, hfind, hne]
  | cons x rest ih =>
    have hx := hpre x (by simp)
    simp only [List.cons_append, heading_go, if_neg hx.1, hx.2]
    simp only [not_true_eq_false, Bool.true_eq_false, if_false, ite_false, if_neg]
    exact ih (fun y hy => hpre y (by simp [hy]))

/-- C3 (amended): when the first trial distance with the projected
point outside currentTz resolves to a different timezone, the crossing
is refined by a binary search of exactly 10 iterations whose initial
bracket is [0, first trial distance outside] (the low end is hardcoded
to 0, not the last inside trial distance), and the midpoint of the
final bracket is returned; the final bracket has width d/2^10. -/
theorem heading_refinement_C3 (c : Coordinator) (polygon : Polygon)
    (lat lon heading : ℚ) (tzId : String) (maxDistance : ℚ)
    (pre post : List ℚ) (d : ℚ)
    (hpoly : lookupPolygon c tzId = some polygon)
    (hsplit : trialDistances = pre ++ d :: post)
    (hpre : ∀ x ∈ pre, ¬ x > maxDistance ∧
      polygon.contains ⟨(c.project lat lon heading x).2,
        (c.project lat lon heading x).1⟩ = true)
    (hd : ¬ d > maxDistance)
    (hout : polygon.contains ⟨(c.project lat lon heading d).2,
      (c.project lat lon heading d).1⟩ = false)
    (hres : ∃ otherTz, find_timezone_at_point c (c.project lat lon heading d).1
      (c.project lat lon heading d).2 = some otherTz ∧ otherTz ≠ tzId) :
    calculate_distance_along_heading c lat lon heading tzId maxDistance
      = (((bisect c polygon lat lon heading 10 (0, d)).1 +
          (bisect c polygon lat lon heading 10 (0, d)).2) / 2 : ℚ) ∧
    (bisect c polygon lat lon heading 10 (0, d)).2 -
      (bisect c polygon lat lon heading 10 (0, d)).1 = d / 1024 := by
  constructor
  · have hgo := heading_go_first c polygon lat lon heading tzId maxDistance pre post d
      hpre hd hout hres
    unfold calculate_distance_along_heading
    rw [hpoly]
    show ((heading_go c polygon lat lon heading tzId maxDistance trialDistances : ℚ) :
      WithTop ℚ) = _
    rw [hsplit, hgo]
  · have hw := bisect_width c polygon lat lon heading 10 0 d
    rw [hw]
    norm_num

/-- C3 witness: in the two-zone instance with the boundary at lon 1.5,
the trials 0.5 and 1 stay inside "A" and the trial at 2 lands in "B",
so the code bisects [0, 2] ten times. -/
theorem heading_refinement_C3_witness :
    lookupPolygon cEx "A" = some polyA ∧
    trialDistances = [0.5, 1] ++ (2 : ℚ) :: [5, 10, 20, 50, 100, 150, 200] ∧
    (∀ x ∈ ([0.5, 1] : List ℚ), ¬ x > (200:ℚ) ∧
      polyA.contains ⟨(cEx.project 0 0 90 x).2, (cEx.project 0 0 90 x).1⟩ = true) ∧
    (¬ (2:ℚ) > 200) ∧
    polyA.contains ⟨(cEx.project 0 0 90 2).2, (cEx.project 0 0 90 2).1⟩ = false ∧
    (calculate_distance_along_heading cEx 0 0 90 "A" 200
      = (((bisect cEx polyA 0 0 90 10 (0, 2)).1 +
          (bisect cEx polyA 0 0 90 10 (0, 2)).2) / 2 : ℚ) ∧
     (bisect cEx polyA 0 0 90 10 (0, 2)).2 -
       (bisect cEx polyA 0 0 90 10 (0, 2)).1 = 2 / 1024) :=
  ⟨by with_unfolding_all rfl, by with_unfolding_all decide,
   by with_unfolding_all decide, by with_unfolding_all decide,
   by with_unfolding_all decide,
   heading_refinement_C3 cEx polyA 0 0 90 "A" 200 [0.5, 1] [5, 10, 20, 50, 100, 150, 200] 2
     (by with_unfolding_all rfl) (by with_unfolding_all decide)
     (by with_unfolding_all decide) (by with_unfolding_all decide)
     (by with_unfolding_all decide)
     ⟨"B", by with_unfolding_all decide, by with_unfolding_all decide⟩⟩

lemma spec_heading_go_first (c : Coordinator) (polygon : Polygon)
    (lat lon heading : ℚ) (tzId : String) (maxDistance : ℚ)
    (pre post : List ℚ) (d li : ℚ)
    (hpre : ∀ x ∈ pre, ¬ x > maxDistance ∧
      polygon.contains ⟨(c.project lat lon heading x).2,
        (c.project lat lon heading x).1⟩ = true)
    (hd : ¬ d > maxDistance)
    (hout : polygon.contains ⟨(c.project lat lon heading d).2,
      (c.project lat lon heading d).1⟩ = false)
    (hres : ∃ otherTz, find_timezone_at_point c (c.project lat lon heading d).1
      (c.project lat lon heading d).2 = some otherTz ∧ otherTz ≠ tzId) :
    spec_heading_go c polygon lat lon heading tzId maxDistance li (pre ++ d :: post)
      = ((bisect c polygon lat lon heading 10 (pre.getLastD li, d)).1 +
         (bisect c polygon lat lon heading 10 (pre.getLastD li, d)).2) / 2 := by
  induction pre generalizing li with
  | nil =>
    obtain ⟨otherTz, hfind, hne⟩ := hres
    simp [spec_heading_go, hd, hout, hfind, hne]
  | cons x rest ih =>
    have hx := hpre x (by simp)
    simp only [List.cons_append, spec_heading_go, if_neg hx.1, hx.2]
    simp only [not_true_eq_false, Bool.true_eq_false, if_false, ite_false, if_neg]
    rw [List.getLastD_cons]
    exact ih x (fun y hy => hpre y (by simp [hy]))

set_option maxHeartbeats 1000000 in
/-- C3 counterexample: with the bracket the claim describes (starting
at the last inside trial distance, here 1) the ten bisection steps end
at midpoint 3071/2048, while the code brackets from 0 and returns
1535/1024, so the claim as stated does not match the code. -/
theorem heading_bracket_counterexample_C3 :
    calculate_distance_along_heading cEx 0 0 90 "A" 200
      = ((1535/1024 : ℚ) : WithTop ℚ) ∧
    spec_heading_distance cEx 0 0 90 "A" 200 = ((3071/2048 : ℚ) : WithTop ℚ) ∧
    spec_heading_distance cEx 0 0 90 "A" 200
      ≠ calculate_distance_along_heading cEx 0 0 90 "A" 200 := by
  have hcode : calculate_distance_along_heading cEx 0 0 90 "A" 200
      = ((1535/1024 : ℚ) : WithTop ℚ) := by with_unfolding_all decide
  have hsg := spec_heading_go_first cEx polyA 0 0 90 "A" 200 [0.5, 1]
    [5, 10, 20, 50, 100, 150, 200] 2 0
    (by with_unfolding_all decide) (by with_unfolding_all decide)
    (by with_unfolding_all decide)
    ⟨"B", by with_unfolding_all decide, by with_unfolding_all decide⟩
  have hb : ((bisect cEx polyA 0 0 90 10 ((([0.5, 1] : List ℚ).getLastD 0), 2)).1 +
      (bisect cEx polyA 0 0 90 10 ((([0.5, 1] : List ℚ).getLastD 0), 2)).2) / 2
      = (3071/2048 : ℚ) := by
    norm_num [bisect, cEx, polyA, List.getLastD]
  have hspec : spec_heading_distance cEx 0 0 90 "A" 200
      = ((3071/2048 : ℚ) : WithTop ℚ) := by
    unfold spec_heading_distance
    rw [show lookupPolygon cEx "A" = some polyA from by with_unfolding_all rfl]
    show ((spec_heading_go cEx polyA 0 0 90 "A" 200 0 trialDistances : ℚ) :
      WithTop ℚ) = _
    rw [show trialDistances = [0.5, 1] ++ (2:ℚ) :: [5, 10, 20, 50, 100, 150, 200] from
      by with_unfolding_all decide]
    rw [hsg, hb]
  exact ⟨hcode, hspec, by rw [hcode, hspec]; with_unfolding_all decide⟩

end TimezoneTracker
